import Mathlib

/-!
Verification of the KnowledgeBase repository (a CRUD knowledge-base/CMS).

The development shallowly embeds the storage layer
(`server/storage.ts` together with the drizzle table schema in
`shared/schema.ts`) and the Express route handlers (`server/routes.ts`)
as pure Lean functions over an explicit store state.  Machine times
(`new Date()`, `now()`) are modelled by an explicit `now : Nat`
parameter; database-generated ids (`gen_random_uuid()`) are minted from
a `nextId` counter carried in the state.  Fallible lookups return
`Option`; zod schema parsing returns `Except String`.
-/

namespace KnowledgeBase

/-- Row of the `users` table (shared/schema.ts): id, username (unique),
password (bcrypt hash), email (unique), fullName, role (default
"employee"), createdAt. -/
structure User where
  id : String
  username : String
  password : String
  email : String
  fullName : String
  role : String
  createdAt : Nat
deriving Repr, DecidableEq

/-- Row of the `categories` table. -/
structure Category where
  id : String
  name : String
  description : Option String
  color : String
  createdAt : Nat
deriving Repr, DecidableEq

/-- Row of the `tags` table. -/
structure Tag where
  id : String
  name : String
  createdAt : Nat
deriving Repr, DecidableEq

/-- Row of the `articles` table.  `status` is the raw string column
(the schema documents the values "draft" and "published" but stores
text); `publishedAt` is the nullable `published_at` timestamp. -/
structure Article where
  id : String
  title : String
  content : String
  excerpt : Option String
  coverImage : Option String
  status : String
  categoryId : Option String
  authorId : String
  views : Nat
  createdAt : Nat
  updatedAt : Nat
  publishedAt : Option Nat
deriving Repr, DecidableEq

/-- Row of the `article_tags` junction table.  The DB-generated
surrogate `id` column is omitted: no behavior in the repository reads
it, every query filters on `articleId`/`tagId`. -/
structure ArticleTagLink where
  articleId : String
  tagId : String
deriving Repr, DecidableEq

/-- The `InsertArticle` payload accepted by `insertArticleSchema`
(shared/schema.ts): `title`/`content` required (min length 1), the
nullable columns optional, `status` optional (the DB column defaults to
"draft"; absence is `none`), `views`/timestamps/id omitted by the
schema. -/
structure InsertArticle where
  title : String
  content : String
  excerpt : Option String := none
  coverImage : Option String := none
  status : Option String := none
  categoryId : Option String := none
  authorId : String
deriving Repr, DecidableEq

/-- `Partial<InsertArticle>` as passed to `updateArticle`: each field is
either absent (`none`, column untouched) or present.  For nullable
columns a present value may itself be `null` (`some none`). -/
structure UpdateData where
  title : Option String := none
  content : Option String := none
  excerpt : Option (Option String) := none
  coverImage : Option (Option String) := none
  status : Option String := none
  categoryId : Option (Option String) := none
  authorId : Option String := none
deriving Repr, DecidableEq

/-- The `InsertUser` payload accepted by `insertUserSchema`:
username/password/email/fullName required with the min-length and email
constraints, role optional (DB default "employee"). -/
structure InsertUser where
  username : String
  password : String
  email : String
  fullName : String
  role : Option String := none
deriving Repr, DecidableEq

/-- A registration/employee-creation request body.  Absent string
fields are modelled as the empty string, which fails the same
min-length checks zod reports for a missing required field. -/
structure RegisterBody where
  username : String
  password : String
  email : String
  fullName : String
  role : Option String := none
deriving Repr, DecidableEq

/-- An article create/patch request body as the handlers see `req.body`
after destructuring: the schema's fields, each possibly absent, plus the
separately destructured `tagIds`. -/
structure ArticleBody where
  title : Option String := none
  content : Option String := none
  excerpt : Option (Option String) := none
  coverImage : Option (Option String) := none
  status : Option String := none
  categoryId : Option (Option String) := none
  authorId : Option String := none
  tagIds : Option (List String) := none
deriving Repr, DecidableEq

/-- The relational backing store: one list per table, plus the counter
minting DB-generated ids. -/
structure StoreState where
  users : List User
  articles : List Article
  categories : List Category
  tags : List Tag
  articleTags : List ArticleTagLink
  nextId : Nat
deriving Repr, DecidableEq

/-- The denormalized read view produced by the relational queries in
`getAllArticles`/`getArticleById`: the article row together with its
author row (password included — the query selects the whole `users`
row), optional category, and resolved tag rows. -/
structure ArticleWithRelations where
  article : Article
  author : User
  category : Option Category
  tags : List Tag
deriving Repr, DecidableEq

/-- `DatabaseStorage.getUser`: select by id. -/
def getUser (s : StoreState) (id : String) : Option User :=
  s.users.find? (fun u => u.id == id)

/-- `DatabaseStorage.getUserByUsername`. -/
def getUserByUsername (s : StoreState) (username : String) : Option User :=
  s.users.find? (fun u => u.username == username)

/-- `DatabaseStorage.getUserByEmail`. -/
def getUserByEmail (s : StoreState) (email : String) : Option User :=
  s.users.find? (fun u => u.email == email)

/-- `DatabaseStorage.createUser`: insert the row (id generated by the
DB, `role` defaulting to "employee", `createdAt` defaulting to now) and
return it. -/
def createUser (s : StoreState) (ins : InsertUser) (now : Nat) : User × StoreState :=
  let u : User :=
    { id := toString s.nextId
      username := ins.username
      password := ins.password
      email := ins.email
      fullName := ins.fullName
      role := ins.role.getD "employee"
      createdAt := now }
  (u, { s with users := s.users ++ [u], nextId := s.nextId + 1 })

/-- `DatabaseStorage.createArticle` (storage.ts lines 150-170): insert
the row with `publishedAt := now` exactly when the supplied status is
"published" (else null; the status column itself defaults to "draft"
when absent), then, if `tagIds` was provided and non-empty, insert one
`article_tags` row per id.  Returns the created article row — the
return type carries no resolved tag objects. -/
def createArticle (s : StoreState) (ins : InsertArticle)
    (tagIds : Option (List String)) (now : Nat) : Article × StoreState :=
  let a : Article :=
    { id := toString s.nextId
      title := ins.title
      content := ins.content
      excerpt := ins.excerpt
      coverImage := ins.coverImage
      status := ins.status.getD "draft"
      categoryId := ins.categoryId
      authorId := ins.authorId
      views := 0
      createdAt := now
      updatedAt := now
      publishedAt := if ins.status == some "published" then some now else none }
  let links :=
    match tagIds with
    | none => s.articleTags
    | some ts =>
        if 0 < ts.length then
          s.articleTags ++ ts.map (fun t => ({ articleId := a.id, tagId := t } : ArticleTagLink))
        else s.articleTags
  (a, { s with articles := s.articles ++ [a], articleTags := links, nextId := s.nextId + 1 })

/-- The per-row effect of the `UPDATE articles SET ...` in
`DatabaseStorage.updateArticle` (storage.ts lines 173-181): each
supplied field overwrites the column, `updatedAt` is always refreshed,
and `publishedAt` is set to now exactly when the supplied status equals
"published" — otherwise the set clause passes `undefined` and the
column keeps its previous value. -/
def applyUpdate (now : Nat) (u : UpdateData) (a : Article) : Article :=
  { a with
    title := u.title.getD a.title
    content := u.content.getD a.content
    excerpt := u.excerpt.getD a.excerpt
    coverImage := u.coverImage.getD a.coverImage
    status := u.status.getD a.status
    categoryId := u.categoryId.getD a.categoryId
    authorId := u.authorId.getD a.authorId
    updatedAt := now
    publishedAt := if u.status == some "published" then some now else a.publishedAt }

/-- `DatabaseStorage.updateArticle` (storage.ts lines 172-200): update
the matching row, take the first returned row (`none` when the id
matches nothing); then, only when `tagIds` was provided, delete every
link of the article and insert one link per id of the new (non-empty)
list. -/
def updateArticle (s : StoreState) (id : String) (u : UpdateData)
    (tagIds : Option (List String)) (now : Nat) : Option Article × StoreState :=
  let articles' := s.articles.map (fun a => if a.id == id then applyUpdate now u a else a)
  let ret := articles'.find? (fun a => a.id == id)
  let links :=
    match tagIds with
    | none => s.articleTags
    | some ts =>
        let kept := s.articleTags.filter (fun l => l.articleId != id)
        if 0 < ts.length then
          kept ++ ts.map (fun t => ({ articleId := id, tagId := t } : ArticleTagLink))
        else kept
  (ret, { s with articles := articles', articleTags := links })

/-- `DatabaseStorage.incrementArticleViews` (storage.ts lines 206-211):
a store-level relative delta `views = views + 1` on the matching row;
no other column or row is touched. -/
def incrementArticleViews (s : StoreState) (id : String) : StoreState :=
  { s with
    articles := s.articles.map (fun a =>
      if a.id == id then { a with views := a.views + 1 } else a) }

/-- Relational resolution used by `getAllArticles`/`getArticleById`:
inline the author row (the FK is notNull, so under FK integrity the
author is always found; a dangling author drops the row), the optional
category, and the tag rows reached through the junction table.  The
source additionally orders the collection by `createdAt` descending;
the ordering is not modelled — no claim concerns it. -/
def resolveArticle (s : StoreState) (a : Article) : Option ArticleWithRelations :=
  match s.users.find? (fun v => v.id == a.authorId) with
  | none => none
  | some au =>
      some
        { article := a
          author := au
          category :=
            match a.categoryId with
            | none => none
            | some cid => s.categories.find? (fun c => c.id == cid)
          tags :=
            (s.articleTags.filter (fun l => l.articleId == a.id)).filterMap
              (fun l => s.tags.find? (fun t => t.id == l.tagId)) }

/-- `DatabaseStorage.getAllArticles` (storage.ts lines 87-105). -/
def getAllArticles (s : StoreState) : List ArticleWithRelations :=
  s.articles.filterMap (resolveArticle s)

/-- A User-shaped response record with the password field absent, as
built by the employee handlers' `({ password, ...user }) => user`
destructuring. -/
structure SanitizedUser where
  id : String
  username : String
  email : String
  fullName : String
  role : String
  createdAt : Nat
deriving Repr, DecidableEq

/-- The `({ password, ...user }) => user` spread. -/
def sanitizeUser (u : User) : SanitizedUser :=
  { id := u.id
    username := u.username
    email := u.email
    fullName := u.fullName
    role := u.role
    createdAt := u.createdAt }

/-- GET /api/employees (routes, lines 237-246): list all users with
passwords stripped.  (The source orders by `createdAt` descending;
ordering is not modelled.) -/
def getEmployeesHandler (s : StoreState) : List SanitizedUser :=
  s.users.map sanitizeUser

/-- GET /api/articles (routes, lines 161-168): the resolved articles
are serialized as-is — no field of the inlined author row is
stripped. -/
def getArticlesHandler (s : StoreState) : List ArticleWithRelations :=
  getAllArticles s

/-- Modelled from the external zod validator `email()` used by
`insertUserSchema`: a single at-sign separating a non-empty local part
from a non-empty domain that contains a dot.  The exact third-party
regex is richer; the development only relies on plainly valid addresses
passing and at-sign-free strings failing. -/
def emailOk (e : String) : Bool :=
  let cs := e.toList
  let u := cs.takeWhile (fun c => c != '@')
  match cs.dropWhile (fun c => c != '@') with
  | '@' :: d => 0 < u.length && 0 < d.length && d.contains '.' && !d.contains '@'
  | _ => false

/-- `insertUserSchema.parse` (shared/schema.ts lines 359-367): username
at least 3 characters, password at least 6, email well-shaped, fullName
at least 2; role passes through. -/
def parseInsertUser (b : RegisterBody) : Except String InsertUser :=
  if b.username.length < 3 then .error "Username must be at least 3 characters"
  else if b.password.length < 6 then .error "Password must be at least 6 characters"
  else if !emailOk b.email then .error "Invalid email address"
  else if b.fullName.length < 2 then .error "Full name is required"
  else .ok
    { username := b.username
      password := b.password
      email := b.email
      fullName := b.fullName
      role := b.role }

/-- `insertArticleSchema.parse` on `{...articleData, authorId}` as used
by POST /api/articles: title and content must be present and non-empty;
the remaining optional fields pass through; `authorId` is the session
user's id (overriding any body field). -/
def parseInsertArticle (b : ArticleBody) (authorId : String) : Except String InsertArticle :=
  match b.title with
  | none => .error "Title is required"
  | some t =>
      if t.length < 1 then .error "Title is required"
      else
        match b.content with
        | none => .error "Content is required"
        | some c =>
            if c.length < 1 then .error "Content is required"
            else .ok
              { title := t
                content := c
                excerpt := b.excerpt.getD none
                coverImage := b.coverImage.getD none
                status := b.status
                categoryId := b.categoryId.getD none
                authorId := authorId }

/-- POST /api/auth/register (routes, lines 51-79): parse, reject a
duplicate username (HTTP 400) before any insert, then a duplicate
email, then hash the password (the external bcrypt call is a function
parameter) and insert.  The response's state component shows whether a
row was inserted. -/
def registerHandler (s : StoreState) (b : RegisterBody)
    (hash : String → String) (now : Nat) : Nat × StoreState :=
  match parseInsertUser b with
  | .error _ => (400, s)
  | .ok d =>
      match getUserByUsername s d.username with
      | some _ => (400, s)
      | none =>
          match getUserByEmail s d.email with
          | some _ => (400, s)
          | none =>
              (200, (createUser s { d with password := hash d.password } now).2)

/-- The raw body fields that PATCH /api/articles/:id forwards to
`updateArticle` after destructuring `tagIds` out — no validation. -/
def bodyUpdateData (b : ArticleBody) : UpdateData :=
  { title := b.title
    content := b.content
    excerpt := b.excerpt
    coverImage := b.coverImage
    status := b.status
    categoryId := b.categoryId
    authorId := b.authorId }

/-- POST /api/articles (routes, lines 197-215): resolve the session
user, parse `{...articleData, authorId: user.id}` with the schema
(failure → HTTP 400, store untouched), then create. -/
def postArticlesHandler (s : StoreState) (userId : String)
    (b : ArticleBody) (now : Nat) : Nat × StoreState :=
  match getUser s userId with
  | none => (401, s)
  | some user =>
      match parseInsertArticle b user.id with
      | .error _ => (400, s)
      | .ok data => (200, (createArticle s data b.tagIds now).2)

/-- PATCH /api/articles/:id (routes, lines 217-225): the body is
forwarded to `updateArticle` with no schema validation and the result
is serialized with HTTP 200 — also when the update matched no row. -/
def patchArticlesHandler (s : StoreState) (id : String)
    (b : ArticleBody) (now : Nat) : Nat × StoreState :=
  (200, (updateArticle s id (bodyUpdateData b) b.tagIds now).2)

/-! Concrete fixtures used by the witness theorems. -/

/-- A concrete stored user. -/
def exUser : User :=
  { id := "u1", username := "alice", password := "secret-hash", email := "alice@x.com"
    fullName := "Alice A", role := "employee", createdAt := 0 }

/-- A concrete stored article authored by `exUser`, already published. -/
def exArticle : Article :=
  { id := "a1", title := "Hello", content := "World", excerpt := none, coverImage := none
    status := "published", categoryId := none, authorId := "u1", views := 0
    createdAt := 1, updatedAt := 1, publishedAt := some 1 }

/-- A concrete store: one user, one published article, two tag links. -/
def exState : StoreState :=
  { users := [exUser], articles := [exArticle], categories := [], tags := []
    articleTags := [{ articleId := "a1", tagId := "t1" }, { articleId := "a1", tagId := "t2" }]
    nextId := 7 }

/-- A concrete store with no articles at all. -/
def exEmptyState : StoreState :=
  { users := [exUser], articles := [], categories := [], tags := [], articleTags := []
    nextId := 0 }

/-- A partial update carrying status = "published". -/
def pubPatch : UpdateData := { status := some "published" }

/-- A partial update carrying status = "draft". -/
def draftPatch : UpdateData := { status := some "draft" }

/-- A concrete valid insert payload. -/
def exInsert : InsertArticle :=
  { title := "Hello", content := "World", authorId := "u1" }

/-- A registration body that parses but reuses the username "alice". -/
def exDupBody : RegisterBody :=
  { username := "alice", password := "secret1", email := "new@x.com", fullName := "Alice B" }

/-- The parse of `exDupBody`. -/
def exDupParsed : InsertUser :=
  { username := "alice", password := "secret1", email := "new@x.com", fullName := "Alice B" }

/-- An article body whose title is empty, violating the schema's
min-length-1 title constraint. -/
def badTitleBody : ArticleBody := { title := some "", content := some "World" }

/-! Helper lemmas about link-list filtering. -/

/-- Links surviving the delete step never match the deleted article. -/
theorem filter_ne_then_eq (id : String) (L : List ArticleTagLink) :
    (L.filter (fun l => l.articleId != id)).filter (fun l => l.articleId == id) = [] := by
  induction L with
  | nil => rfl
  | cons l L ih =>
      by_cases h : l.articleId = id
      · have hb : (l.articleId != id) = false := by simp [h]
        simp only [List.filter_cons, hb, Bool.false_eq_true, if_false]
        exact ih
      · have hb : (l.articleId != id) = true := by simp [bne, beq_eq_false_iff_ne.mpr h]
        have hb' : (l.articleId == id) = false := beq_eq_false_iff_ne.mpr h
        simp only [List.filter_cons, hb, if_true, hb', Bool.false_eq_true, if_false]
        exact ih

/-- Filtering away one article's links is idempotent. -/
theorem filter_ne_idem (id : String) (L : List ArticleTagLink) :
    (L.filter (fun l => l.articleId != id)).filter (fun l => l.articleId != id)
      = L.filter (fun l => l.articleId != id) := by
  induction L with
  | nil => rfl
  | cons l L ih =>
      by_cases h : l.articleId = id
      · have hb : (l.articleId != id) = false := by simp [h]
        simp only [List.filter_cons, hb, Bool.false_eq_true, if_false]
        exact ih
      · have hb : (l.articleId != id) = true := by simp [bne, beq_eq_false_iff_ne.mpr h]
        simp only [List.filter_cons, hb, if_true]
        rw [ih]

/-- Every freshly minted link carries the target article's id. -/
theorem filter_eq_minted (id : String) (ts : List String) :
    ((ts.map (fun t => ({ articleId := id, tagId := t } : ArticleTagLink))).filter
        (fun l => l.articleId == id))
      = ts.map (fun t => ({ articleId := id, tagId := t } : ArticleTagLink)) := by
  induction ts with
  | nil => rfl
  | cons t ts ih => simp [List.filter, ih]

/-- No freshly minted link belongs to another article. -/
theorem filter_ne_minted (id : String) (ts : List String) :
    ((ts.map (fun t => ({ articleId := id, tagId := t } : ArticleTagLink))).filter
        (fun l => l.articleId != id)) = [] := by
  induction ts with
  | nil => rfl
  | cons t ts ih => simp [List.filter, ih]

/-- Projecting the tag ids of the minted links recovers the input list. -/
theorem map_tagId_minted (id : String) (ts : List String) :
    (ts.map (fun t => ({ articleId := id, tagId := t } : ArticleTagLink))).map
        (fun l => l.tagId) = ts := by
  induction ts with
  | nil => rfl
  | cons t ts ih => simp [ih]

/-! Claim theorems. -/

/-- Claim C1: for every call to `updateArticle` whose partial fields
carry status = "published", every stored row with the targeted id — in
particular one that was already published before the call — has its
`publishedAt` re-stamped to the call's current time, and the returned
article likewise carries `publishedAt = now`. -/
theorem claim_C1 (s : StoreState) (id : String) (u : UpdateData)
    (tagIds : Option (List String)) (now : Nat) (h : u.status = some "published") :
    (∀ a' ∈ (updateArticle s id u tagIds now).2.articles,
        a'.id = id → a'.publishedAt = some now)
    ∧ (∀ art, (updateArticle s id u tagIds now).1 = some art →
        art.publishedAt = some now) := by
  have hmem : ∀ a' ∈ (updateArticle s id u tagIds now).2.articles,
      a'.id = id → a'.publishedAt = some now := by
    intro a' ha' hid
    have : a' ∈ s.articles.map (fun a => if a.id == id then applyUpdate now u a else a) := ha'
    rcases List.mem_map.mp this with ⟨a, _, rfl⟩
    by_cases hcase : a.id = id
    · simp [hcase, applyUpdate, h]
    · simp only [beq_eq_false_iff_ne.mpr hcase, if_neg] at hid ⊢
      simp at hid
      exact absurd hid hcase
  refine ⟨hmem, ?_⟩
  intro art hart
  have hart' : (s.articles.map (fun a => if a.id == id then applyUpdate now u a else a)).find?
      (fun a => a.id == id) = some art := hart
  have hmem' : art ∈ (updateArticle s id u tagIds now).2.articles :=
    List.mem_of_find?_eq_some hart'
  have hid := List.find?_some hart'
  simp only [beq_iff_eq] at hid
  exact hmem art hmem' hid

/-- Witness for C1: re-publishing the already published `exArticle` at
time 9 stamps `publishedAt = some 9`. -/
theorem claim_C1_witness :
    (applyUpdate 9 pubPatch exArticle).publishedAt = some 9 :=
  (claim_C1 exState "a1" pubPatch none 9 rfl).1 (applyUpdate 9 pubPatch exArticle)
    (by decide) (by decide)

/-- Claim C2: `updateArticle` with `tagIds` omitted leaves the link
table exactly unchanged; with `tagIds` provided (including the empty
list) the article's links afterwards are exactly one per provided id —
so the resulting tag set equals the provided set, the empty list
clearing all tags — while links of other articles are untouched. -/
theorem claim_C2 (s : StoreState) (id : String) (u : UpdateData) (now : Nat) :
    ((updateArticle s id u none now).2.articleTags = s.articleTags)
    ∧ ∀ ts : List String,
        (((updateArticle s id u (some ts) now).2.articleTags.filter
            (fun l => l.articleId == id)).map (fun l => l.tagId) = ts)
        ∧ ((updateArticle s id u (some ts) now).2.articleTags.filter
            (fun l => l.articleId != id)
          = s.articleTags.filter (fun l => l.articleId != id)) := by
  refine ⟨rfl, ?_⟩
  intro ts
  have hunf : (updateArticle s id u (some ts) now).2.articleTags
      = (if 0 < ts.length
          then s.articleTags.filter (fun l => l.articleId != id)
            ++ ts.map (fun t => ({ articleId := id, tagId := t } : ArticleTagLink))
          else s.articleTags.filter (fun l => l.articleId != id)) := rfl
  rw [hunf]
  by_cases hts : 0 < ts.length
  · rw [if_pos hts]
    constructor
    · rw [List.filter_append, filter_ne_then_eq, filter_eq_minted, List.nil_append,
        map_tagId_minted]
    · rw [List.filter_append, filter_ne_idem, filter_ne_minted, List.append_nil]
  · have hnil : ts = [] := List.eq_nil_of_length_eq_zero (by omega)
    subst hnil
    rw [if_neg hts]
    exact ⟨by rw [filter_ne_then_eq]; rfl, by rw [filter_ne_idem]⟩

/-- Across any sequence of updates, `publishedAt` is populated exactly
when the article starts populated or some update carries
status = "published". -/
theorem foldl_applyUpdate_publishedAt (ops : List (UpdateData × Nat)) (a : Article) :
    (ops.foldl (fun b p => applyUpdate p.2 p.1 b) a).publishedAt.isSome
      = (a.publishedAt.isSome || ops.any (fun p => p.1.status == some "published")) := by
  induction ops generalizing a with
  | nil => simp
  | cons p ops ih =>
      rw [List.foldl_cons, ih, List.any_cons]
      by_cases h : p.1.status = some "published"
      · simp [applyUpdate, h]
      · have hb : (p.1.status == some "published") = false := beq_eq_false_iff_ne.mpr h
        simp [applyUpdate, hb]

/-- Claim C5: an article created by `createArticle` and then evolved by
any sequence of update calls has `publishedAt` non-null exactly when
the creation or some update carried status = "published"; in
particular a draft-created article keeps `publishedAt` null until the
first publish-carrying update. -/
theorem claim_C5 (s : StoreState) (ins : InsertArticle) (tagIds : Option (List String))
    (now : Nat) (ops : List (UpdateData × Nat)) :
    (ops.foldl (fun b p => applyUpdate p.2 p.1 b)
        (createArticle s ins tagIds now).1).publishedAt.isSome
      = ((ins.status == some "published")
          || ops.any (fun p => p.1.status == some "published")) := by
  rw [foldl_applyUpdate_publishedAt]
  have hcr : (createArticle s ins tagIds now).1.publishedAt
      = (if ins.status == some "published" then some now else none) := rfl
  rw [hcr]
  cases hb : (ins.status == some "published") <;> simp [hb]

/-- Claim C6: `createArticle` stamps `publishedAt := now` exactly when
the supplied status is "published" (null otherwise), starts `views` at
0, appends exactly the created row (which it returns: the return type
`Article` carries no resolved tag objects), inserts one link per id of
a supplied non-empty `tagIds` list, and inserts no link otherwise. -/
theorem claim_C6 (s : StoreState) (ins : InsertArticle)
    (tagIds : Option (List String)) (now : Nat) :
    ((createArticle s ins tagIds now).1.publishedAt
        = (if ins.status == some "published" then some now else none))
    ∧ ((createArticle s ins tagIds now).1.views = 0)
    ∧ ((createArticle s ins tagIds now).2.articles
        = s.articles ++ [(createArticle s ins tagIds now).1])
    ∧ (tagIds = none → (createArticle s ins tagIds now).2.articleTags = s.articleTags)
    ∧ (∀ ts, tagIds = some ts → 0 < ts.length →
        (createArticle s ins tagIds now).2.articleTags
          = s.articleTags ++ ts.map (fun t =>
              ({ articleId := (createArticle s ins tagIds now).1.id, tagId := t }
                : ArticleTagLink))) := by
  refine ⟨rfl, rfl, rfl, ?_, ?_⟩
  · rintro rfl; rfl
  · rintro ts rfl hts
    have hunf : (createArticle s ins (some ts) now).2.articleTags
        = (if 0 < ts.length
            then s.articleTags ++ ts.map (fun t =>
              ({ articleId := (createArticle s ins (some ts) now).1.id, tagId := t }
                : ArticleTagLink))
            else s.articleTags) := rfl
    rw [hunf, if_pos hts]

/-- Witness for C6: creating with tag ids t1, t2 appends exactly those
two links. -/
theorem claim_C6_witness :
    (createArticle exState exInsert (some ["t1", "t2"]) 5).2.articleTags
      = exState.articleTags ++ ["t1", "t2"].map (fun t =>
          ({ articleId := (createArticle exState exInsert (some ["t1", "t2"]) 5).1.id
             tagId := t } : ArticleTagLink)) :=
  (claim_C6 exState exInsert (some ["t1", "t2"]) 5).2.2.2.2 ["t1", "t2"] rfl (by decide)

/-- Stacking two views-only record updates collapses into one. -/
theorem incViews_incViews (a : Article) (n : Nat) :
    ({ ({ a with views := a.views + 1 } : Article) with
        views := ({ a with views := a.views + 1 } : Article).views + n } : Article)
      = { a with views := a.views + (n + 1) } := by
  show ({ a with views := a.views + 1 + n } : Article)
      = { a with views := a.views + (n + 1) }
  have harith : a.views + 1 + n = a.views + (n + 1) := by omega
  rw [harith]

/-- Iterating `incrementArticleViews` n times adds exactly n to the
targeted article's counter and leaves any other article unchanged. -/
theorem iterate_inc (id : String) (n : Nat) :
    ∀ (s : StoreState) (i : Nat) (a : Article), s.articles[i]? = some a →
      ((fun t => incrementArticleViews t id)^[n] s).articles[i]?
        = some (if a.id == id then { a with views := a.views + n } else a) := by
  induction n with
  | zero =>
      intro s i a h
      rw [Function.iterate_zero_apply]
      by_cases hid : (a.id == id) = true
      · rw [if_pos hid]; exact h
      · rw [if_neg hid]; exact h
  | succ n ih =>
      intro s i a h
      rw [Function.iterate_succ_apply]
      by_cases hid : (a.id == id) = true
      · have h1 : (incrementArticleViews s id).articles[i]?
            = some ({ a with views := a.views + 1 } : Article) := by
          show (s.articles.map (fun a =>
            if a.id == id then { a with views := a.views + 1 } else a))[i]? = _
          rw [List.getElem?_map, h]
          simp only [Option.map_some']
          rw [if_pos hid]
        have hid2 : (({ a with views := a.views + 1 } : Article).id == id) = true := hid
        have h2 := ih (incrementArticleViews s id) i _ h1
        rw [if_pos hid2] at h2
        rw [h2, if_pos hid]
        exact congrArg some (incViews_incViews a n)
      · have h1 : (incrementArticleViews s id).articles[i]? = some a := by
          show (s.articles.map (fun a =>
            if a.id == id then { a with views := a.views + 1 } else a))[i]? = _
          rw [List.getElem?_map, h]
          simp only [Option.map_some']
          rw [if_neg hid]
        have h2 := ih (incrementArticleViews s id) i a h1
        rw [if_neg hid] at h2
        rw [if_neg hid]
        exact h2

/-- Claim C7: one `incrementArticleViews` call touches no table other
than `articles`, and n repeated calls yield, at every list position,
exactly the original row with `views` increased by n when the id
matches and the untouched original row otherwise — each call always
adds exactly 1, with no deduplication. -/
theorem claim_C7 (s : StoreState) (id : String) (n i : Nat) (a : Article)
    (h : s.articles[i]? = some a) :
    ((incrementArticleViews s id).users = s.users
      ∧ (incrementArticleViews s id).categories = s.categories
      ∧ (incrementArticleViews s id).tags = s.tags
      ∧ (incrementArticleViews s id).articleTags = s.articleTags)
    ∧ ((fun t => incrementArticleViews t id)^[n] s).articles[i]?
        = some (if a.id == id then { a with views := a.views + n } else a) :=
  ⟨⟨rfl, rfl, rfl, rfl⟩, iterate_inc id n s i a h⟩

/-- Witness for C7: two increments on `exArticle` raise its counter
from 0 to 2. -/
theorem claim_C7_witness :
    ((fun t => incrementArticleViews t "a1")^[2] exState).articles[0]?
      = some (if exArticle.id == "a1"
          then { exArticle with views := exArticle.views + 2 } else exArticle) :=
  (claim_C7 exState "a1" 2 0 exArticle rfl).2

/-- Claim C9: an update not carrying status = "published" leaves every
row's `publishedAt` exactly unchanged, and no `updateArticle` call ever
turns a non-null `publishedAt` back into null. -/
theorem claim_C9 (s : StoreState) (id : String) (u : UpdateData)
    (tagIds : Option (List String)) (now : Nat) :
    (u.status ≠ some "published" →
      (updateArticle s id u tagIds now).2.articles.map (fun a => a.publishedAt)
        = s.articles.map (fun a => a.publishedAt))
    ∧ (∀ (i : Nat) (a a' : Article), s.articles[i]? = some a →
        (updateArticle s id u tagIds now).2.articles[i]? = some a' →
        a.publishedAt.isSome = true → a'.publishedAt.isSome = true) := by
  constructor
  · intro h
    have hb : (u.status == some "published") = false := beq_eq_false_iff_ne.mpr h
    show (s.articles.map (fun a => if a.id == id then applyUpdate now u a else a)).map
        (fun a => a.publishedAt) = _
    rw [List.map_map]
    apply List.map_congr_left
    intro a _
    by_cases hid : (a.id == id) = true
    · show (if (a.id == id) = true then applyUpdate now u a else a).publishedAt = _
      rw [if_pos hid]
      show (if u.status == some "published" then some now else a.publishedAt) = _
      rw [hb, if_neg (by simp)]
    · show (if (a.id == id) = true then applyUpdate now u a else a).publishedAt = _
      rw [if_neg hid]
  · intro i a a' ha ha' hpub
    have hunf : (updateArticle s id u tagIds now).2.articles[i]?
        = some (if a.id == id then applyUpdate now u a else a) := by
      show (s.articles.map (fun a => if a.id == id then applyUpdate now u a else a))[i]? = _
      rw [List.getElem?_map, ha]
      rfl
    rw [hunf] at ha'
    injection ha' with ha''
    rw [← ha'']
    by_cases hid : (a.id == id) = true
    · rw [if_pos hid]
      show (if u.status == some "published" then some now else a.publishedAt).isSome = true
      by_cases hp : (u.status == some "published") = true
      · rw [if_pos hp]; rfl
      · rw [if_neg hp]; exact hpub
    · rw [if_neg hid]; exact hpub

/-- Witness for C9: a status = "draft" update on the published
`exArticle` leaves the stored `publishedAt` values untouched. -/
theorem claim_C9_witness :
    (updateArticle exState "a1" draftPatch none 9).2.articles.map (fun a => a.publishedAt)
      = exState.articles.map (fun a => a.publishedAt) :=
  (claim_C9 exState "a1" draftPatch none 9).1 (by decide)

/-- Counterexample to C3 as stated: the PATCH article handler, fed a
payload whose title is empty (violating the schema's min-length-1
title constraint), surfaces no validation error — it answers 200 and
the store was invoked, overwriting the stored title with the empty
string. -/
theorem claim_C3_counterexample :
    (patchArticlesHandler exState "a1" badTitleBody 9).1 = 200
    ∧ (patchArticlesHandler exState "a1" badTitleBody 9).2.articles.map
        (fun a => a.title) = [""] := by
  exact ⟨rfl, by decide⟩

/-- Claim C3 as amended: the POST article handler and the registration
handler validate the payload against the schema's field constraints
before invoking the store and, on malformed input, answer with a client
error leaving the store unchanged; the PATCH article handler, by
contrast, performs no validation and always forwards the raw body
fields to `updateArticle`, answering success. -/
theorem claim_C3_amended :
    (∀ (s : StoreState) (uid : String) (b : ArticleBody) (now : Nat) (user : User)
        (e : String), getUser s uid = some user →
        parseInsertArticle b user.id = .error e →
        postArticlesHandler s uid b now = (400, s))
    ∧ (∀ (s : StoreState) (b : RegisterBody) (hash : String → String) (now : Nat)
        (e : String), parseInsertUser b = .error e →
        registerHandler s b hash now = (400, s))
    ∧ (∀ (s : StoreState) (id : String) (b : ArticleBody) (now : Nat),
        patchArticlesHandler s id b now
          = (200, (updateArticle s id (bodyUpdateData b) b.tagIds now).2)) := by
  refine ⟨?_, ?_, fun s id b now => rfl⟩
  · intro s uid b now user e hget hparse
    simp [postArticlesHandler, hget, hparse]
  · intro s b hash now e hparse
    simp [registerHandler, hparse]

/-- Witness for the amended C3: posting a body with an empty title is
rejected with 400 and the store is unchanged. -/
theorem claim_C3_witness :
    postArticlesHandler exState "u1" badTitleBody 9 = (400, exState) :=
  claim_C3_amended.1 exState "u1" badTitleBody 9 exUser "Title is required" (by decide) rfl

/-- Claim C4 fails on the code: the articles listing serializes the
resolved author row verbatim, so the response exposes the author's
stored password hash, while the employees listing does strip it. -/
theorem claim_C4_bug :
    ((getArticlesHandler exState).map (fun r => r.author.password) = ["secret-hash"])
    ∧ ((getEmployeesHandler exState).map (fun r => r.username) = ["alice"]) := by
  exact ⟨by decide, by decide⟩

/-- Claim C8: when the registration payload parses but the username is
already taken, the handler answers 400 and the store state — hence the
users table — is exactly unchanged: no insert is attempted. -/
theorem claim_C8 (s : StoreState) (b : RegisterBody) (hash : String → String)
    (now : Nat) (d : InsertUser) (u : User)
    (h1 : parseInsertUser b = .ok d)
    (h2 : getUserByUsername s d.username = some u) :
    registerHandler s b hash now = (400, s) := by
  simp [registerHandler, h1, h2]

/-- Witness for C8: registering a second "alice" against `exState` is
rejected with 400 and the state is unchanged. -/
theorem claim_C8_witness :
    registerHandler exState exDupBody (fun p => p) 3 = (400, exState) :=
  claim_C8 exState exDupBody (fun p => p) 3 exDupParsed exUser rfl (by decide)

/-- Claim C10: updating a nonexistent article id signals no not-found
outcome — the row update affects nothing and no article row is
returned — yet a provided tag-id list still triggers the link
replacement (vacuous delete, then one insert per id), and the PATCH
handler answers 200 regardless. -/
theorem claim_C10 (s : StoreState) (id : String) (u : UpdateData) (ts : List String)
    (now : Nat) (h : ∀ a ∈ s.articles, a.id ≠ id) :
    ((updateArticle s id u (some ts) now).1 = none)
    ∧ ((updateArticle s id u (some ts) now).2.articles = s.articles)
    ∧ ((updateArticle s id u (some ts) now).2.articleTags
        = (if 0 < ts.length
            then s.articleTags.filter (fun l => l.articleId != id)
              ++ ts.map (fun t => ({ articleId := id, tagId := t } : ArticleTagLink))
            else s.articleTags.filter (fun l => l.articleId != id)))
    ∧ (∀ b : ArticleBody, (patchArticlesHandler s id b now).1 = 200) := by
  have hpt : ∀ a ∈ s.articles,
      (if a.id == id then applyUpdate now u a else a) = a := by
    intro a ha
    rw [if_neg (fun hc => h a ha (beq_iff_eq.mp hc))]
  have hmap : s.articles.map (fun a => if a.id == id then applyUpdate now u a else a)
      = s.articles := by
    rw [List.map_congr_left hpt, List.map_id']
  refine ⟨?_, hmap, rfl, fun b => rfl⟩
  show (s.articles.map (fun a => if a.id == id then applyUpdate now u a else a)).find?
      (fun a => a.id == id) = none
  rw [hmap]
  apply List.find?_eq_none.mpr
  intro a ha
  simp [beq_eq_false_iff_ne.mpr (h a ha)]

/-- Witness for C10: patching the article-free `exEmptyState` at a
fresh id returns no article row. -/
theorem claim_C10_witness :
    (updateArticle exEmptyState "zz" pubPatch (some ["t1"]) 4).1 = none :=
  (claim_C10 exEmptyState "zz" pubPatch ["t1"] 4 (by decide)).1

end KnowledgeBase
